import Mathlib

/-!
Verification of the resource-lifetime tracker ("Lifetime"/"Slot") core of the
repository, against its natural-language specification.

The Slot module is embedded from `src/unnamed/part_000` (the file defining
`lt_slot_t`, `create_lt_slot`, `destroy_lt_slot`, `lt_slot_reset_resource`,
`lt_slot_contains_resource`).  The Lifetime container itself (`lt.c`, declared
in `system/lt.h` and used by `src/src/game.c` through `PUSH_LT` / `RESET_LT` /
`RETURN_LT`) is not among the source files, so it is modelled from the spec;
each such definition carries a doc comment starting `Modelled from the spec:`.

Modelling conventions:
* A C pointer / opaque resource handle is a `Nat` identity; a possibly-NULL
  pointer is an `Option Nat` (`none` = NULL).  Handle equality is pointer
  identity.
* A release (destroy) function is identified by a `Nat` code; invoking it is
  recorded as an event `Ev.release fn res` in an event log, so "invoked
  exactly once, in this order" becomes a statement about the log.
* `free` of a Slot's or the Lifetime's own bookkeeping storage is recorded as
  `Ev.freeSlot` / `Ev.freeLt`.
* A C `assert` failure aborts the process; a computation that can abort
  returns `CResult`, whose `abort` constructor marks the assertion failure.
* `malloc` is fallible; its outcome is threaded in as a boolean oracle
  (`allocOk`): `true` = allocation succeeds, `false` = it returns NULL.
-/

/-- Outcome of a C computation that contains `assert`s: either a normal
result or an assertion-failure abort. -/
inductive CResult (α : Type) where
  | ok : α → CResult α
  | abort : CResult α
deriving DecidableEq, Repr

/-- Observable side effects of the lifetime core: invoking a release function
on a resource handle, freeing a Slot's storage, freeing the Lifetime's own
bookkeeping. -/
inductive Ev where
  | release (fn : Nat) (res : Nat)
  | freeSlot
  | freeLt
deriving DecidableEq, Repr

/-- Projection of an event log to the release invocations it contains, as
(release function, resource) pairs, in order. -/
def releasesOf (evs : List Ev) : List (Nat × Nat) :=
  evs.filterMap (fun e =>
    match e with
    | Ev.release f r => some (f, r)
    | _ => none)

/-- `struct lt_slot_t`: one tracked resource handle plus its release
function (`resource`, `resource_destroy`). -/
structure lt_slot_t where
  resource : Nat
  resource_destroy : Nat
deriving DecidableEq, Repr

/-- `create_lt_slot(resource, resource_destroy)`:
`assert(resource); assert(resource_destroy);` then `malloc`; on malloc
failure it returns NULL (no release is invoked); on success it returns the
new slot holding the pair.  The returned event log records every release
invocation performed by the call. -/
def create_lt_slot (resource : Option Nat) (resource_destroy : Option Nat)
    (allocOk : Bool) : CResult (Option lt_slot_t × List Ev) :=
  match resource with
  | none => CResult.abort
  | some r =>
    match resource_destroy with
    | none => CResult.abort
    | some d =>
      if allocOk then CResult.ok (some ⟨r, d⟩, []) else CResult.ok (none, [])

/-- `destroy_lt_slot(lt_slot)`: invokes
`lt_slot->resource_destroy(lt_slot->resource)` and then `free(lt_slot)`.
Returns the event log of the call. -/
def destroy_lt_slot (lt_slot : lt_slot_t) : List Ev :=
  [Ev.release lt_slot.resource_destroy lt_slot.resource, Ev.freeSlot]

/-- `lt_slot_reset_resource(lt_slot, resource)`:
`assert(lt_slot); assert(resource);` then invokes
`lt_slot->resource_destroy(lt_slot->resource)` and stores the new resource in
the same slot; the release function field is untouched. -/
def lt_slot_reset_resource (lt_slot : lt_slot_t) (resource : Option Nat) :
    CResult (lt_slot_t × List Ev) :=
  match resource with
  | none => CResult.abort
  | some r =>
    CResult.ok ({ lt_slot with resource := r },
      [Ev.release lt_slot.resource_destroy lt_slot.resource])

/-- `lt_slot_contains_resource(lt_slot, resource)`:
`assert(lt_slot); assert(resource);` then pointer-identity comparison
`lt_slot->resource == resource`. -/
def lt_slot_contains_resource (lt_slot : lt_slot_t) (resource : Option Nat) :
    CResult Bool :=
  match resource with
  | none => CResult.abort
  | some r => CResult.ok (lt_slot.resource == r)

/-- C6: `destroy(slot)` invokes `release(resource)` on the Slot's stored
resource exactly once (release of `resource_destroy` applied to `resource`,
and no other release), and the Slot's own storage is freed afterwards. -/
theorem destroy_slot_releases_once_then_frees (s : lt_slot_t) :
    destroy_lt_slot s =
      [Ev.release s.resource_destroy s.resource, Ev.freeSlot] ∧
    releasesOf (destroy_lt_slot s) = [(s.resource_destroy, s.resource)] ∧
    (destroy_lt_slot s).count (Ev.release s.resource_destroy s.resource) = 1 := by
  refine ⟨rfl, rfl, ?_⟩
  simp [destroy_lt_slot, List.count_cons]

/-- C7: `owns(slot, candidate)` with a non-null candidate returns true iff
`candidate` is exactly (by identity) the handle currently stored in the
Slot. -/
theorem contains_resource_iff_identity (s : lt_slot_t) (c : Nat) :
    lt_slot_contains_resource s (some c) = CResult.ok true ↔ s.resource = c := by
  simp [lt_slot_contains_resource]

/-- C10: `owns` with a NULL candidate handle hits `assert(resource)` and
aborts; it does not return false. -/
theorem contains_resource_null_aborts (s : lt_slot_t) :
    lt_slot_contains_resource s none = CResult.abort := rfl

/-- C4: `replace(slot, new_resource)` with non-null `new_resource` invokes
`release(old_resource)` exactly once (and nothing else), stores
`new_resource` in the same Slot, and leaves the release function unchanged. -/
theorem reset_resource_releases_old_installs_new (s : lt_slot_t) (r : Nat) :
    lt_slot_reset_resource s (some r) =
      CResult.ok (⟨r, s.resource_destroy⟩,
        [Ev.release s.resource_destroy s.resource]) ∧
    releasesOf [Ev.release s.resource_destroy s.resource] =
      [(s.resource_destroy, s.resource)] := by
  exact ⟨rfl, rfl⟩

/-- C8: creating a Slot with a NULL resource or a NULL release function, and
replacing with a NULL new resource, are assertion failures (abort); with the
non-null preconditions met, neither operation aborts. -/
theorem slot_null_preconditions_abort (r d : Nat) (dd : Option Nat)
    (a : Bool) (s : lt_slot_t) :
    create_lt_slot none dd a = CResult.abort ∧
    create_lt_slot (some r) none a = CResult.abort ∧
    lt_slot_reset_resource s none = CResult.abort ∧
    create_lt_slot (some r) (some d) a ≠ CResult.abort ∧
    lt_slot_reset_resource s (some r) ≠ CResult.abort := by
  refine ⟨rfl, rfl, rfl, ?_, ?_⟩
  · cases a <;> simp [create_lt_slot]
  · simp [lt_slot_reset_resource]

/-- `Lt`: Modelled from the spec: the Lifetime owns "an ordered sequence of
Slots, insertion-ordered (order of `track` calls)"; `lt.c` is not among the
source files, only its header uses in `game.c`. -/
structure Lt where
  slots : List lt_slot_t
deriving DecidableEq, Repr

/-- Modelled from the spec: `create()` returns "a new, empty Lifetime, or an
allocation-failure signal"; the allocation outcome is the `allocOk` oracle. -/
def create_lt (allocOk : Bool) : Option Lt :=
  if allocOk then some ⟨[]⟩ else none

/-- Modelled from the spec: `track(lifetime, resource, release)` "registers
`resource` (with its `release` function) as a new Slot appended to the
ordered sequence, and returns `resource` unchanged.  If registering the Slot
fails (bookkeeping allocation failure), `release(resource)` is invoked
immediately and a failure signal is returned instead."  A NULL release
function is a precondition violation (abort).  A NULL resource is a caller
constructor failure, which the core "propagate[s] upward without having
registered anything" (the call sites in `create_game` rely on this
pass-through: each `PUSH_LT(lt, create_x(...), destroy_x)` is followed by a
NULL check on its result).  Slot registration itself is `create_lt_slot`
from the source. -/
def lt_track (lt : Lt) (resource : Option Nat) (resource_destroy : Option Nat)
    (allocOk : Bool) : CResult (Option Nat × Lt × List Ev) :=
  match resource_destroy with
  | none => CResult.abort
  | some d =>
    match resource with
    | none => CResult.ok (none, lt, [])
    | some r =>
      match create_lt_slot (some r) (some d) allocOk with
      | CResult.abort => CResult.abort
      | CResult.ok (none, evs) =>
        CResult.ok (none, lt, evs ++ [Ev.release d r])
      | CResult.ok (some slot, evs) =>
        CResult.ok (some r, ⟨lt.slots ++ [slot]⟩, evs)

/-- Modelled from the spec: `destroy(lifetime)` "releases every remaining
Slot in strict reverse order of insertion (most-recently-tracked first),
then frees the Lifetime's own bookkeeping", a no-op list of releases on an
empty Lifetime.  Each Slot is torn down by `destroy_lt_slot` from the
source. -/
def lt_destroy (lt : Lt) : List Ev :=
  (lt.slots.reverse.map destroy_lt_slot).flatten ++ [Ev.freeLt]

/-- Helper for `lt_reset`: walk the slot sequence in insertion order looking
for the slot owning `r` (identity test via `lt_slot_contains_resource`); on
the first hit, release the old resource and, when the constructor produced a
new resource, install it in that same slot via `lt_slot_reset_resource`.
Returns (result, updated slot sequence, event log). -/
def lt_reset_go (slots : List lt_slot_t) (r : Nat) (ctor : Option Nat) :
    Option Nat × List lt_slot_t × List Ev :=
  match slots with
  | [] => (none, [], [])
  | s :: rest =>
    if lt_slot_contains_resource s (some r) = CResult.ok true then
      match ctor with
      | none =>
        (none, s :: rest, [Ev.release s.resource_destroy s.resource])
      | some r2 =>
        match lt_slot_reset_resource s (some r2) with
        | CResult.ok (s2, evs) => (some r2, s2 :: rest, evs)
        | CResult.abort => (none, s :: rest, [])
    else
      let t := lt_reset_go rest r ctor
      (t.1, s :: t.2.1, t.2.2)

/-- Modelled from the spec: `reset(lifetime, resource, constructor)` "locates
the Slot currently owning `resource` (by identity, via `owns`); if found,
releases the old resource, invokes `constructor` to obtain a new resource,
and stores it in the same Slot at the same position; returns the new
resource or a failure signal if no Slot owns `resource` ... or if the
constructor fails."  The constructor's outcome is passed in as `ctor`
(`none` = the constructor failed).  A NULL resource aborts, as `owns`
asserts a non-null candidate. -/
def lt_reset (lt : Lt) (resource : Option Nat) (ctor : Option Nat) :
    CResult (Option Nat × Lt × List Ev) :=
  match resource with
  | none => CResult.abort
  | some r =>
    let t := lt_reset_go lt.slots r ctor
    CResult.ok (t.1, ⟨t.2.1⟩, t.2.2)

/-- A sequence of `track` calls that all succeed (non-null handles, slot
bookkeeping allocation succeeding): tracks each (resource, release) pair of
the list in order, accumulating the event log. -/
def lt_track_many (lt : Lt) : List (Nat × Nat) → Lt × List Ev
  | [] => (lt, [])
  | (r, d) :: rest =>
    match lt_track lt (some r) (some d) true with
    | CResult.ok (_, lt2, evs) =>
      let t := lt_track_many lt2 rest
      (t.1, evs ++ t.2)
    | CResult.abort => (lt, [])

theorem releasesOf_nil : releasesOf [] = [] := rfl

theorem releasesOf_cons_release (f r : Nat) (evs : List Ev) :
    releasesOf (Ev.release f r :: evs) = (f, r) :: releasesOf evs := rfl

theorem releasesOf_cons_freeSlot (evs : List Ev) :
    releasesOf (Ev.freeSlot :: evs) = releasesOf evs := rfl

theorem releasesOf_cons_freeLt (evs : List Ev) :
    releasesOf (Ev.freeLt :: evs) = releasesOf evs := rfl

theorem releasesOf_append (l1 l2 : List Ev) :
    releasesOf (l1 ++ l2) = releasesOf l1 ++ releasesOf l2 := by
  simp [releasesOf]

/-- Destroying a sequence of slots in order releases, in order, exactly the
(release function, resource) pair of each slot. -/
theorem releasesOf_destroy_list (l : List lt_slot_t) :
    releasesOf ((l.map destroy_lt_slot).flatten) =
      l.map (fun s => (s.resource_destroy, s.resource)) := by
  induction l with
  | nil => rfl
  | cons s rest ih =>
    simp only [List.map_cons, List.flatten_cons, releasesOf_append]
    rw [ih]
    rfl

/-- The release invocations of a full Lifetime teardown are exactly the
slots' pairs in reverse insertion order. -/
theorem lt_destroy_releases (lt : Lt) :
    releasesOf (lt_destroy lt) =
      lt.slots.reverse.map (fun s => (s.resource_destroy, s.resource)) := by
  rw [lt_destroy, releasesOf_append, releasesOf_destroy_list]
  simp [releasesOf]

/-- A run of successful `track` calls appends one slot per pair, in call
order, and performs no release. -/
theorem lt_track_many_spec (pairs : List (Nat × Nat)) : ∀ lt : Lt,
    lt_track_many lt pairs =
      (⟨lt.slots ++ pairs.map (fun p => ⟨p.1, p.2⟩)⟩, []) := by
  induction pairs with
  | nil => intro lt; simp [lt_track_many]
  | cons p rest ih =>
    intro lt
    obtain ⟨r, d⟩ := p
    simp only [lt_track_many, lt_track, create_lt_slot, if_true]
    simp [ih]

/-- The release log of tracking a list of pairs into a Lifetime and then
destroying it: the tracked pairs in reverse tracking order, followed by the
previously held slots in reverse insertion order. -/
theorem track_destroy_log (lt : Lt) (pairs : List (Nat × Nat)) :
    releasesOf (lt_destroy (lt_track_many lt pairs).1) =
      pairs.reverse.map (fun p => (p.2, p.1)) ++
        lt.slots.reverse.map (fun s => (s.resource_destroy, s.resource)) := by
  rw [lt_track_many_spec, lt_destroy_releases]
  simp [Function.comp]

/-- Counting a pair in a component-swapped list counts the swapped pair in
the original list. -/
theorem count_map_swap (fn res : Nat) (l : List (Nat × Nat)) :
    (l.map (fun p => (p.2, p.1))).count (fn, res) = l.count (res, fn) := by
  induction l with
  | nil => rfl
  | cons p rest ih =>
    obtain ⟨a, b⟩ := p
    by_cases h1 : b = fn <;> by_cases h2 : a = res <;>
      simp [List.count_cons, ih, h1, h2, Prod.ext_iff]

/-- C1: after N successful `track` calls followed by `destroy`, the release
functions of the tracked resources are invoked in exactly the reverse order
of tracking (most-recently-tracked first) and each tracked pair exactly as
often as it was tracked (once, for distinct instances); tracking itself
performs no release. -/
theorem track_then_destroy_lifo (lt : Lt) (pairs : List (Nat × Nat)) :
    (lt_track_many lt pairs).2 = [] ∧
    releasesOf (lt_destroy (lt_track_many lt pairs).1) =
      pairs.reverse.map (fun p => (p.2, p.1)) ++
        lt.slots.reverse.map (fun s => (s.resource_destroy, s.resource)) ∧
    ∀ fn res : Nat,
      (releasesOf (lt_destroy (lt_track_many ⟨[]⟩ pairs).1)).count (fn, res) =
        pairs.count (res, fn) := by
  refine ⟨?_, track_destroy_log lt pairs, ?_⟩
  · rw [lt_track_many_spec]
  · intro fn res
    rw [track_destroy_log]
    simp only [List.reverse_nil, List.map_nil, List.append_nil]
    rw [count_map_swap, List.count_reverse]

/-- C2: when Slot registration fails inside `track` (bookkeeping allocation
failure), `release(resource)` is invoked exactly once immediately, the
failure signal NULL is returned instead of the resource, and the Lifetime is
unchanged (in particular its tracked count); on success, `track` returns the
resource unchanged, with the new slot appended and no release invoked. -/
theorem track_failure_releases_once_count_unchanged (lt : Lt) (r d : Nat) :
    lt_track lt (some r) (some d) false =
      CResult.ok (none, lt, [Ev.release d r]) ∧
    lt_track lt (some r) (some d) true =
      CResult.ok (some r, ⟨lt.slots ++ [⟨r, d⟩]⟩, []) := by
  exact ⟨rfl, rfl⟩

/-- C3 counterexample: at resource handle 1 with release function 2,
`create_lt_slot` under bookkeeping allocation failure reports the failure
sentinel (NULL slot) with an empty event log — the release of the resource
is NOT invoked before the failure is reported, contrary to the claim. -/
theorem create_slot_alloc_failure_releases_nothing :
    create_lt_slot (some 1) (some 2) false = CResult.ok (none, []) ∧
    CResult.ok ((none : Option lt_slot_t), ([] : List Ev)) ≠
      CResult.ok (none, [Ev.release 2 1]) := by
  exact ⟨rfl, by decide⟩

/-- C3 amended: when Slot `create` fails due to bookkeeping allocation
failure it reports the failure sentinel to the caller without invoking the
release function itself; the guarantee that the about-to-be-tracked resource
is released before the failure is reported is provided one level up, by
`track`, which invokes `release(resource)` exactly once and then reports the
failure. -/
theorem create_slot_failure_release_happens_in_track (lt : Lt) (r d : Nat) :
    create_lt_slot (some r) (some d) false = CResult.ok (none, []) ∧
    lt_track lt (some r) (some d) false =
      CResult.ok (none, lt, [Ev.release d r]) := by
  exact ⟨rfl, rfl⟩

/-- `lt_reset_go` on a slot sequence in which no slot owns `r`: nothing is
released, the sequence is unchanged, and the result is the failure signal. -/
theorem lt_reset_go_not_found (r : Nat) (c : Option Nat) :
    ∀ slots : List lt_slot_t, (∀ t ∈ slots, t.resource ≠ r) →
      lt_reset_go slots r c = (none, slots, []) := by
  intro slots
  induction slots with
  | nil => intro _; rfl
  | cons s rest ih =>
    intro h
    have hs : s.resource ≠ r := h s (by simp)
    have hrest := ih (fun t ht => h t (by simp [ht]))
    simp [lt_reset_go, lt_slot_contains_resource, hs, hrest]

/-- `lt_reset_go` when the first slot owning `r` is `s`, sitting after a
prefix `pre` none of whose slots owns `r`: the old resource of `s` is
released exactly once; with a successful constructor the new resource is
installed in that same slot at the same position, with a failed constructor
the failure signal is returned. -/
theorem lt_reset_go_found (post : List lt_slot_t) (s : lt_slot_t)
    (r r2 : Nat) :
    ∀ pre : List lt_slot_t, (∀ t ∈ pre, t.resource ≠ r) → s.resource = r →
      lt_reset_go (pre ++ s :: post) r (some r2) =
        (some r2, pre ++ { s with resource := r2 } :: post,
          [Ev.release s.resource_destroy s.resource]) ∧
      lt_reset_go (pre ++ s :: post) r none =
        (none, pre ++ s :: post,
          [Ev.release s.resource_destroy s.resource]) := by
  intro pre
  induction pre with
  | nil =>
    intro _ hs
    constructor <;>
      simp [lt_reset_go, lt_slot_contains_resource, hs,
        lt_slot_reset_resource]
  | cons p prest ih =>
    intro hpre hs
    have hp : p.resource ≠ r := hpre p (by simp)
    have ih2 := ih (fun t ht => hpre t (by simp [ht])) hs
    constructor <;>
      simp [lt_reset_go, lt_slot_contains_resource, hp, ih2.1, ih2.2]

/-- C5: `reset(lifetime, resource, constructor)` locates the Slot owning
`resource` by identity, releases the old resource exactly once, installs the
constructor's new resource in the same Slot at the same position in the
teardown order, and returns the new resource; it returns the failure signal
NULL when no Slot owns `resource` (nothing released, Lifetime unchanged) and
when the constructor fails. -/
theorem reset_locates_releases_installs_in_place (pre post slots : List lt_slot_t)
    (s : lt_slot_t) (r r2 : Nat) :
    ((∀ t ∈ pre, t.resource ≠ r) → s.resource = r →
      lt_reset ⟨pre ++ s :: post⟩ (some r) (some r2) =
        CResult.ok (some r2, ⟨pre ++ { s with resource := r2 } :: post⟩,
          [Ev.release s.resource_destroy s.resource]) ∧
      lt_reset ⟨pre ++ s :: post⟩ (some r) none =
        CResult.ok (none, ⟨pre ++ s :: post⟩,
          [Ev.release s.resource_destroy s.resource])) ∧
    ((∀ t ∈ slots, t.resource ≠ r) →
      lt_reset ⟨slots⟩ (some r) (some r2) =
        CResult.ok (none, ⟨slots⟩, [])) := by
  constructor
  · intro hpre hs
    have h := lt_reset_go_found post s r r2 pre hpre hs
    constructor <;> simp [lt_reset, h.1, h.2]
  · intro hnone
    simp [lt_reset, lt_reset_go_not_found r (some r2) slots hnone]

/-- Witness for C5 at a concrete Lifetime [(5,6), (1,2), (3,4)]: resetting
resource 1 with a constructor yielding 7 releases the old resource via its
release function 2 and installs 7 in the middle slot; resetting a resource
no slot owns fails and changes nothing. -/
theorem reset_locates_releases_installs_in_place_witness :
    lt_reset ⟨[⟨5, 6⟩, ⟨1, 2⟩, ⟨3, 4⟩]⟩ (some 1) (some 7) =
      CResult.ok (some 7, ⟨[⟨5, 6⟩, ⟨7, 2⟩, ⟨3, 4⟩]⟩, [Ev.release 2 1]) ∧
    lt_reset ⟨[⟨5, 6⟩, ⟨1, 2⟩, ⟨3, 4⟩]⟩ (some 1) none =
      CResult.ok (none, ⟨[⟨5, 6⟩, ⟨1, 2⟩, ⟨3, 4⟩]⟩, [Ev.release 2 1]) ∧
    lt_reset ⟨[⟨5, 6⟩]⟩ (some 1) (some 7) =
      CResult.ok (none, ⟨[⟨5, 6⟩]⟩, []) := by
  have h := reset_locates_releases_installs_in_place [⟨5, 6⟩] [⟨3, 4⟩]
    [⟨5, 6⟩] ⟨1, 2⟩ 1 7
  have hfound := h.1 (by decide) rfl
  exact ⟨hfound.1, hfound.2, h.2 (by decide)⟩

/-- Identity codes for the release functions passed to `PUSH_LT` by
`create_game` in `src/src/game.c`, in the order they first appear. -/
def FREE : Nat := 0

def DESTROY_BROADCAST : Nat := 1

def DESTROY_SPRITE_FONT : Nat := 2

def DESTROY_LEVEL_PICKER : Nat := 3

def DESTROY_SOUND_SAMPLES : Nat := 4

def DESTROY_CAMERA : Nat := 5

def DESTROY_CONSOLE : Nat := 6

def SDL_DestroyTexture : Nat := 7

/-- `enum Game_state` from `src/src/game.c`. -/
inductive Game_state where
  | GAME_STATE_RUNNING
  | GAME_STATE_PAUSE
  | GAME_STATE_CONSOLE
  | GAME_STATE_LEVEL_PICKER
  | GAME_STATE_QUIT
deriving DecidableEq, Repr

/-- `struct Game` from `src/src/game.c` (the resource-handle fields tracked
by its Lifetime; the SDL renderer is an untracked external handle and is
omitted). -/
structure Game where
  lt : Lt
  state : Game_state
  broadcast : Option Nat
  font : Option Nat
  level_picker : Option Nat
  level : Option Nat
  sound_samples : Option Nat
  camera : Option Nat
  console : Option Nat
  texture_cursor : Option Nat
  cursor_x : Int
  cursor_y : Int
deriving DecidableEq, Repr

/-- `create_game` from `src/src/game.c`.  Each caller-supplied constructor's
outcome is passed in as a parameter (`none` = the constructor returned
NULL): `gameMem` is `nth_alloc(sizeof(Game))`, then the results of
`create_broadcast`, `create_sprite_font_from_file`, `create_level_picker`,
`create_sound_samples`, `create_camera`, `create_console`,
`texture_from_bmp`.  `ltOk` is the outcome of `create_lt`, `allocOk` the
slot-bookkeeping allocation oracle of every `PUSH_LT`.  Every acquisition is
pushed with `PUSH_LT` (modelled by `lt_track`) and checked for NULL — after
which `RETURN_LT(lt, NULL)` destroys the Lifetime and returns NULL — except
the cursor texture, which is pushed and never checked before `return game`.
Returns the Game (or NULL) plus the event log. -/
def create_game (ltOk allocOk : Bool)
    (gameMem broadcastR fontR level_pickerR sound_samplesR cameraR consoleR
     textureR : Option Nat) : Option Game × List Ev :=
  match create_lt ltOk with
  | none => (none, [])
  | some lt0 =>
    match lt_track lt0 gameMem (some FREE) allocOk with
    | CResult.abort => (none, [])
    | CResult.ok (gameH, lt1, evs1) =>
      match gameH with
      | none => (none, evs1 ++ lt_destroy lt1)
      | some _ =>
        match lt_track lt1 broadcastR (some DESTROY_BROADCAST) allocOk with
        | CResult.abort => (none, [])
        | CResult.ok (bc, lt2, evs2) =>
          match bc with
          | none => (none, evs1 ++ evs2 ++ lt_destroy lt2)
          | some _ =>
            match lt_track lt2 fontR (some DESTROY_SPRITE_FONT) allocOk with
            | CResult.abort => (none, [])
            | CResult.ok (fo, lt3, evs3) =>
              match fo with
              | none => (none, evs1 ++ evs2 ++ evs3 ++ lt_destroy lt3)
              | some _ =>
                match lt_track lt3 level_pickerR (some DESTROY_LEVEL_PICKER)
                    allocOk with
                | CResult.abort => (none, [])
                | CResult.ok (lp, lt4, evs4) =>
                  match lp with
                  | none =>
                    (none, evs1 ++ evs2 ++ evs3 ++ evs4 ++ lt_destroy lt4)
                  | some _ =>
                    match lt_track lt4 sound_samplesR
                        (some DESTROY_SOUND_SAMPLES) allocOk with
                    | CResult.abort => (none, [])
                    | CResult.ok (ss, lt5, evs5) =>
                      match ss with
                      | none =>
                        (none, evs1 ++ evs2 ++ evs3 ++ evs4 ++ evs5 ++
                          lt_destroy lt5)
                      | some _ =>
                        match lt_track lt5 cameraR (some DESTROY_CAMERA)
                            allocOk with
                        | CResult.abort => (none, [])
                        | CResult.ok (cam, lt6, evs6) =>
                          match cam with
                          | none =>
                            (none, evs1 ++ evs2 ++ evs3 ++ evs4 ++ evs5 ++
                              evs6 ++ lt_destroy lt6)
                          | some _ =>
                            match lt_track lt6 consoleR
                                (some DESTROY_CONSOLE) allocOk with
                            | CResult.abort => (none, [])
                            | CResult.ok (con, lt7, evs7) =>
                              match con with
                              | none =>
                                (none, evs1 ++ evs2 ++ evs3 ++ evs4 ++
                                  evs5 ++ evs6 ++ evs7 ++ lt_destroy lt7)
                              | some _ =>
                                match lt_track lt7 textureR
                                    (some SDL_DestroyTexture) allocOk with
                                | CResult.abort => (none, [])
                                | CResult.ok (tex, lt8, evs8) =>
                                  (some
                                    { lt := lt8,
                                      state :=
                                        Game_state.GAME_STATE_LEVEL_PICKER,
                                      broadcast := bc,
                                      font := fo,
                                      level_picker := lp,
                                      level := none,
                                      sound_samples := ss,
                                      camera := cam,
                                      console := con,
                                      texture_cursor := tex,
                                      cursor_x := 0,
                                      cursor_y := 0 },
                                    evs1 ++ evs2 ++ evs3 ++ evs4 ++ evs5 ++
                                      evs6 ++ evs7 ++ evs8)

/-- C9: in `create_game`, each of the seven tracked acquisitions before the
cursor texture (the Game allocation, broadcast, font, level picker, sound
samples, camera, console) is checked for failure, and on its failure the
Lifetime — holding exactly the acquisitions tracked so far — is destroyed
and NULL is returned; the result of `texture_from_bmp` is pushed with no
check, so when the cursor-texture constructor fails a NULL handle is handed
to tracking and `create_game` still returns a non-null Game (whose
`texture_cursor` is NULL); on full success all eight acquisitions are
tracked in order. -/
theorem create_game_checks_all_but_cursor_texture
    (g b f l s c k t : Nat) :
    create_game false true (some g) (some b) (some f) (some l) (some s)
      (some c) (some k) (some t) = (none, []) ∧
    create_game true true none (some b) (some f) (some l) (some s)
      (some c) (some k) (some t) = (none, lt_destroy ⟨[]⟩) ∧
    create_game true true (some g) none (some f) (some l) (some s)
      (some c) (some k) (some t) = (none, lt_destroy ⟨[⟨g, FREE⟩]⟩) ∧
    create_game true true (some g) (some b) none (some l) (some s)
      (some c) (some k) (some t) =
      (none, lt_destroy ⟨[⟨g, FREE⟩, ⟨b, DESTROY_BROADCAST⟩]⟩) ∧
    create_game true true (some g) (some b) (some f) none (some s)
      (some c) (some k) (some t) =
      (none, lt_destroy ⟨[⟨g, FREE⟩, ⟨b, DESTROY_BROADCAST⟩,
        ⟨f, DESTROY_SPRITE_FONT⟩]⟩) ∧
    create_game true true (some g) (some b) (some f) (some l) none
      (some c) (some k) (some t) =
      (none, lt_destroy ⟨[⟨g, FREE⟩, ⟨b, DESTROY_BROADCAST⟩,
        ⟨f, DESTROY_SPRITE_FONT⟩, ⟨l, DESTROY_LEVEL_PICKER⟩]⟩) ∧
    create_game true true (some g) (some b) (some f) (some l) (some s)
      none (some k) (some t) =
      (none, lt_destroy ⟨[⟨g, FREE⟩, ⟨b, DESTROY_BROADCAST⟩,
        ⟨f, DESTROY_SPRITE_FONT⟩, ⟨l, DESTROY_LEVEL_PICKER⟩,
        ⟨s, DESTROY_SOUND_SAMPLES⟩]⟩) ∧
    create_game true true (some g) (some b) (some f) (some l) (some s)
      (some c) none (some t) =
      (none, lt_destroy ⟨[⟨g, FREE⟩, ⟨b, DESTROY_BROADCAST⟩,
        ⟨f, DESTROY_SPRITE_FONT⟩, ⟨l, DESTROY_LEVEL_PICKER⟩,
        ⟨s, DESTROY_SOUND_SAMPLES⟩, ⟨c, DESTROY_CAMERA⟩]⟩) ∧
    create_game true true (some g) (some b) (some f) (some l) (some s)
      (some c) (some k) none =
      (some
        { lt := ⟨[⟨g, FREE⟩, ⟨b, DESTROY_BROADCAST⟩,
            ⟨f, DESTROY_SPRITE_FONT⟩, ⟨l, DESTROY_LEVEL_PICKER⟩,
            ⟨s, DESTROY_SOUND_SAMPLES⟩, ⟨c, DESTROY_CAMERA⟩,
            ⟨k, DESTROY_CONSOLE⟩]⟩,
          state := Game_state.GAME_STATE_LEVEL_PICKER,
          broadcast := some b, font := some f, level_picker := some l,
          level := none, sound_samples := some s, camera := some c,
          console := some k, texture_cursor := none,
          cursor_x := 0, cursor_y := 0 }, []) ∧
    create_game true true (some g) (some b) (some f) (some l) (some s)
      (some c) (some k) (some t) =
      (some
        { lt := ⟨[⟨g, FREE⟩, ⟨b, DESTROY_BROADCAST⟩,
            ⟨f, DESTROY_SPRITE_FONT⟩, ⟨l, DESTROY_LEVEL_PICKER⟩,
            ⟨s, DESTROY_SOUND_SAMPLES⟩, ⟨c, DESTROY_CAMERA⟩,
            ⟨k, DESTROY_CONSOLE⟩, ⟨t, SDL_DestroyTexture⟩]⟩,
          state := Game_state.GAME_STATE_LEVEL_PICKER,
          broadcast := some b, font := some f, level_picker := some l,
          level := none, sound_samples := some s, camera := some c,
          console := some k, texture_cursor := some t,
          cursor_x := 0, cursor_y := 0 }, []) := by
  exact ⟨rfl, rfl, rfl, rfl, rfl, rfl, rfl, rfl, rfl, rfl⟩
